import Mathlib

/-!
Verification of `get_product.py`: the two-stage product-selection pipeline.

Strings are modelled as `List Char` (`Str`).  Python string operations
(`strip`, `lower`, `splitlines`, `startswith`, `endswith`, slicing) are
embedded as functions on `Str`.  `json.loads` is embedded as an executable
recursive-descent JSON reader (`pyJsonLoads`) returning `Option Json`,
where `none` models a raised `json.JSONDecodeError`; the parser follows the
JSON grammar that `json.loads` accepts (objects, arrays, double-quoted
strings with escapes, numbers, `true`/`false`/`null`; the non-standard
`NaN`/`Infinity` extensions and `\uXXXX` surrogate pairing are not
modelled, and no input in this development uses them).  Python `dict`s
produced by `json.loads` keep the last binding for a duplicated key, which
`jgetLast` reproduces.
-/

namespace GetProduct

/-- Strings as lists of characters. -/
abbrev Str := List Char

/-- The single-quote character, written by code point to keep source plain. -/
def sq : Char := Char.ofNat 39

/-- Python `str.strip` whitespace predicate (ASCII whitespace:
space, tab, newline, carriage return, vertical tab, form feed). -/
def pyIsSpace (c : Char) : Bool :=
  c == ' ' || c == '\t' || c == '\n' || c == '\r' || c == Char.ofNat 11 || c == Char.ofNat 12

/-- Python `str.strip()`: drop whitespace from both ends. -/
def pyStrip (s : Str) : Str :=
  ((s.dropWhile pyIsSpace).reverse.dropWhile pyIsSpace).reverse

/-- The uppercase-to-lowercase table of ASCII letters. -/
def lowerPairs : List (Char × Char) :=
  [('A', 'a'), ('B', 'b'), ('C', 'c'), ('D', 'd'), ('E', 'e'), ('F', 'f'),
   ('G', 'g'), ('H', 'h'), ('I', 'i'), ('J', 'j'), ('K', 'k'), ('L', 'l'),
   ('M', 'm'), ('N', 'n'), ('O', 'o'), ('P', 'p'), ('Q', 'q'), ('R', 'r'),
   ('S', 's'), ('T', 't'), ('U', 'u'), ('V', 'v'), ('W', 'w'), ('X', 'x'),
   ('Y', 'y'), ('Z', 'z')]

/-- Python `str.lower` on one ASCII character. -/
def pyToLower (c : Char) : Char :=
  ((lowerPairs.find? (fun p => p.1 == c)).map Prod.snd).getD c

/-- Python `str.lower()`. -/
def pyLower (s : Str) : Str := s.map pyToLower

/-- Python `s.startswith(c)` for a single character (empty string: `False`). -/
def firstIs (c : Char) : Str → Bool
  | [] => false
  | a :: _ => a == c

/-- Python `s.endswith(c)` for a single character (empty string: `False`). -/
def lastIs (c : Char) (s : Str) : Bool := firstIs c s.reverse

/-- Python `str.splitlines`, worker: accumulates the current line reversed.
Line boundaries `\n`, `\r\n` and `\r`; a trailing boundary adds no line. -/
def splitlinesAux : Str → Str → List Str
  | [], acc => [acc.reverse]
  | '\r' :: '\n' :: rest, acc =>
    acc.reverse :: (if rest = [] then [] else splitlinesAux rest [])
  | '\n' :: rest, acc =>
    acc.reverse :: (if rest = [] then [] else splitlinesAux rest [])
  | '\r' :: rest, acc =>
    acc.reverse :: (if rest = [] then [] else splitlinesAux rest [])
  | c :: rest, acc => splitlinesAux rest (c :: acc)

/-- Python `str.splitlines()` (`"".splitlines() == []`). -/
def pySplitlines (s : Str) : List Str :=
  if s = [] then [] else splitlinesAux s []

/-! ## JSON values and `json.loads` -/

/-- JSON values as produced by `json.loads`.  Numbers keep their source
lexeme: no claim inspects numeric values, only whether a value is a string,
so the (floating-point) numeric interpretation is irrelevant here. -/
inductive Json where
  | null
  | bool (b : Bool)
  | num (lexeme : Str)
  | str (s : Str)
  | arr (elems : List Json)
  | obj (members : List (Str × Json))

/-- Python `dict.get` on the member list built by `json.loads`:
for duplicated keys the later binding wins, as in a Python `dict`. -/
def jgetLast (kvs : List (Str × Json)) (k : Str) : Option Json :=
  match kvs with
  | [] => none
  | (k0, v0) :: rest =>
    match jgetLast rest k with
    | some v => some v
    | none => if k0 = k then some v0 else none

/-- JSON insignificant whitespace. -/
def jsonIsWs (c : Char) : Bool :=
  c == ' ' || c == '\t' || c == '\n' || c == '\r'

/-- Skip JSON insignificant whitespace. -/
def skipWs (s : Str) : Str := s.dropWhile jsonIsWs

/-- Value of a simple JSON string escape character. -/
def escSimple (c : Char) : Option Char :=
  if c = '"' then some '"'
  else if c = '\\' then some '\\'
  else if c = '/' then some '/'
  else if c = 'b' then some (Char.ofNat 8)
  else if c = 'f' then some (Char.ofNat 12)
  else if c = 'n' then some '\n'
  else if c = 'r' then some '\r'
  else if c = 't' then some '\t'
  else none

/-- Value of one hexadecimal digit. -/
def hexDigitVal (c : Char) : Option Nat :=
  if '0' ≤ c ∧ c ≤ '9' then some (c.toNat - 48)
  else if 'a' ≤ c ∧ c ≤ 'f' then some (c.toNat - 87)
  else if 'A' ≤ c ∧ c ≤ 'F' then some (c.toNat - 55)
  else none

/-- Read a JSON string body (after the opening quote) up to the closing
quote; returns the decoded content and the remaining input.  Unescaped
control characters are rejected, as in strict-mode `json.loads`. -/
def parseStrBody : Str → Option (Str × Str)
  | [] => none
  | c :: rest =>
    if c = '"' then some ([], rest)
    else if c = '\\' then
      match rest with
      | [] => none
      | e :: rest2 =>
        match escSimple e with
        | some ce => (parseStrBody rest2).map (fun p => (ce :: p.1, p.2))
        | none =>
          if e = 'u' then
            match rest2 with
            | h1 :: h2 :: h3 :: h4 :: rest3 =>
              match hexDigitVal h1, hexDigitVal h2, hexDigitVal h3, hexDigitVal h4 with
              | some a, some b, some c3, some d =>
                (parseStrBody rest3).map
                  (fun p => (Char.ofNat (((a * 16 + b) * 16 + c3) * 16 + d) :: p.1, p.2))
              | _, _, _, _ => none
            | _ => none
          else none
    else if c.toNat < 32 then none
    else (parseStrBody rest).map (fun p => (c :: p.1, p.2))

/-- Read a JSON number (sign, integer part with no leading zero, optional
fraction, optional exponent); returns the lexeme and the remaining input. -/
def parseNum (s : Str) : Option (Json × Str) :=
  let (sgn, s1) : Str × Str := match s with
    | '-' :: r => (['-'], r)
    | _ => ([], s)
  let ip := s1.takeWhile Char.isDigit
  let r1 := s1.dropWhile Char.isDigit
  if ip = [] then none
  else if 2 ≤ ip.length ∧ ip.head? = some '0' then none
  else
    let (fracPart, r2) : Str × Str :=
      match r1 with
      | '.' :: r =>
        let d := r.takeWhile Char.isDigit
        if d = [] then ([], r1) else ('.' :: d, r.dropWhile Char.isDigit)
      | _ => ([], r1)
    let (expPart, r3) : Str × Str :=
      match r2 with
      | c :: r =>
        if c = 'e' ∨ c = 'E' then
          let (es, rr) : Str × Str := match r with
            | '+' :: t => (['+'], t)
            | '-' :: t => (['-'], t)
            | _ => ([], r)
          let d := rr.takeWhile Char.isDigit
          if d = [] then ([], r2)
          else (c :: (es ++ d), rr.dropWhile Char.isDigit)
        else ([], r2)
      | _ => ([], r2)
    some (Json.num (sgn ++ ip ++ fracPart ++ expPart), r3)

/-- Literal lexeme `null`. -/
def nullLit : Str := "null".data

/-- Literal lexeme `true`. -/
def trueLit : Str := "true".data

/-- Literal lexeme `false`. -/
def falseLit : Str := "false".data

mutual

/-- Read one JSON value.  Fuel bounds the recursion depth; `pyJsonLoads`
supplies more fuel than any input can consume. -/
def parseVal : Nat → Str → Option (Json × Str)
  | 0, _ => none
  | f + 1, s0 =>
    let s := skipWs s0
    if nullLit.isPrefixOf s then some (.null, s.drop 4)
    else if trueLit.isPrefixOf s then some (.bool true, s.drop 4)
    else if falseLit.isPrefixOf s then some (.bool false, s.drop 5)
    else
      match s with
      | [] => none
      | c :: rest =>
        if c = '"' then
          match parseStrBody rest with
          | some (cs, r) => some (.str cs, r)
          | none => none
        else if c = '[' then
          match skipWs rest with
          | ']' :: r2 => some (.arr [], r2)
          | r2 =>
            match parseVal f r2 with
            | some (v, r3) =>
              match parseArrTail f r3 with
              | some (vs, r4) => some (.arr (v :: vs), r4)
              | none => none
            | none => none
        else if c = Char.ofNat 123 then
          match skipWs rest with
          | c2 :: r2 =>
            if c2 = Char.ofNat 125 then some (.obj [], r2)
            else
              match parseMember f (c2 :: r2) with
              | some (kv, r3) =>
                match parseObjTail f r3 with
                | some (kvs, r4) => some (.obj (kv :: kvs), r4)
                | none => none
              | none => none
          | [] => none
        else parseNum s

/-- Read the continuation of a JSON array after one element:
`, value ... ]` or `]`. -/
def parseArrTail : Nat → Str → Option (List Json × Str)
  | 0, _ => none
  | f + 1, s =>
    match skipWs s with
    | ',' :: r =>
      match parseVal f r with
      | some (v, r2) =>
        match parseArrTail f r2 with
        | some (vs, r3) => some (v :: vs, r3)
        | none => none
      | none => none
    | ']' :: r => some ([], r)
    | _ => none

/-- Read one JSON object member: `"key" : value`. -/
def parseMember : Nat → Str → Option ((Str × Json) × Str)
  | 0, _ => none
  | f + 1, s =>
    match skipWs s with
    | '"' :: r =>
      match parseStrBody r with
      | some (k, r2) =>
        match skipWs r2 with
        | ':' :: r3 =>
          match parseVal f r3 with
          | some (v, r4) => some ((k, v), r4)
          | none => none
        | _ => none
      | none => none
    | _ => none

/-- Read the continuation of a JSON object after one member. -/
def parseObjTail : Nat → Str → Option (List (Str × Json) × Str)
  | 0, _ => none
  | f + 1, s =>
    match skipWs s with
    | ',' :: r =>
      match parseMember f r with
      | some (kv, r2) =>
        match parseObjTail f r2 with
        | some (kvs, r3) => some (kv :: kvs, r3)
        | none => none
      | none => none
    | c :: r => if c = Char.ofNat 125 then some ([], r) else none
    | _ => none

end

/-- Python `json.loads`: read one value, require only whitespace after it.
`none` models a raised decoding exception. -/
def pyJsonLoads (s : Str) : Option Json :=
  match parseVal (s.length + 1) s with
  | some (v, rest) => if skipWs rest = [] then some v else none
  | none => none

/-! ## `_extract_text_from_possible_json` (the OutputNormalizer) -/

/-- The fixed key priority list scanned on a parsed JSON object
(`get_product.py` line 106). -/
def keyList : List Str :=
  ["ml_generate_text_result".data, "text".data, "content".data,
   "output_text".data, "result".data]

/-- Key priority list scanned on the first element of a parsed JSON array
(`get_product.py` line 142; note the different order). -/
def arrKeyList : List Str :=
  ["content".data, "text".data, "output_text".data,
   "ml_generate_text_result".data]

/-- Scan `keys` in order; return the first string value bound in `kvs`
(the `for key in (...)` loop of `get_product.py` lines 106-109). -/
def firstKeyString (kvs : List (Str × Json)) : List Str → Option Str
  | [] => none
  | k :: ks =>
    match jgetLast kvs k with
    | some (Json.str v) => some v
    | _ => firstKeyString kvs ks

/-- Strings collected from `content.parts[*].text`
(`get_product.py` lines 124-130). -/
def partTexts (parts : List Json) : List Str :=
  parts.filterMap fun p =>
    match p with
    | Json.obj pkvs =>
      match jgetLast pkvs "text".data with
      | some (Json.str t) => some t
      | _ => none
    | _ => none

/-- Strings collected from one element of a `candidates` list
(`get_product.py` lines 113-134): direct `text`/`output_text`, then
`content.parts[*].text`, then `ml_generate_text_result`. -/
def candTexts (cand : Json) : List Str :=
  match cand with
  | Json.obj kvs =>
    let direct := (["text".data, "output_text".data]).filterMap fun k =>
      match jgetLast kvs k with
      | some (Json.str t) => some t
      | _ => none
    let fromContent :=
      match jgetLast kvs "content".data with
      | some (Json.obj ckvs) =>
        match jgetLast ckvs "parts".data with
        | some (Json.arr parts) => partTexts parts
        | _ => []
      | _ => []
    let alt :=
      match jgetLast kvs "ml_generate_text_result".data with
      | some (Json.str t) => [t]
      | _ => []
    direct ++ fromContent ++ alt
  | _ => []

/-- Python `"\n".join`. -/
def joinNewline : List Str → Str
  | [] => []
  | [x] => x
  | x :: xs => x ++ '\n' :: joinNewline xs

/-- Structured extraction from a parsed JSON object
(`get_product.py` lines 105-136): the fixed key scan, then the
`candidates` list; `none` means the code falls through to the raw-text
fallback. -/
def extractFromObj (kvs : List (Str × Json)) : Option Str :=
  match firstKeyString kvs keyList with
  | some v => some v
  | none =>
    match jgetLast kvs "candidates".data with
    | some (Json.arr []) => none
    | some (Json.arr cands) =>
      let texts := (cands.map candTexts).flatten
      if texts = [] then none else some (joinNewline texts)
    | _ => none

/-- Structured extraction from the first element of a parsed JSON array
(`get_product.py` lines 137-145). -/
def extractFromArr (elems : List Json) : Option Str :=
  match elems with
  | [] => none
  | first :: _ =>
    match first with
    | Json.str v => some v
    | Json.obj kvs => firstKeyString kvs arrKeyList
    | _ => none

/-- Structured extraction from any parsed JSON value
(`get_product.py` lines 103-145). -/
def extractFromJson : Json → Option Str
  | Json.str v => some v
  | Json.obj kvs => extractFromObj kvs
  | Json.arr elems => extractFromArr elems
  | _ => none

/-- `_extract_text_from_possible_json` (`get_product.py` lines 89-148).
The argument is `Option Str` because the Python function also accepts
`None` (line 90). -/
def extractTextFromPossibleJson (s? : Option Str) : Str :=
  match s? with
  | none => []
  | some s =>
    let t := pyStrip s
    let fromQuoted : Option Str :=
      if (firstIs '"' t && lastIs '"' t) || (firstIs sq t && lastIs sq t) then
        match pyJsonLoads t with
        | some (Json.str v) => some v
        | _ => none
      else none
    match fromQuoted with
    | some v => v
    | none =>
      if firstIs (Char.ofNat 123) t || firstIs '[' t then
        match pyJsonLoads t with
        | some j =>
          match extractFromJson j with
          | some v => v
          | none => s
        | none => s
      else s

/-! ## `parse_selected_product_id` (the SelectionParser) -/

/-- The lowercase field label the parser looks for
(`get_product.py` line 158). -/
def keyLit : Str := "selected_product_id:".data

/-- Everything after the first colon: Python `s.split(":", 1)[1]`,
assuming a colon is present. -/
def afterFirstColon (s : Str) : Str :=
  (s.dropWhile (fun c => !(c == ':'))).drop 1

/-- Strip one wrapping layer: Python `value[1:-1].strip()`. -/
def stripWrap (v : Str) : Str := pyStrip ((v.drop 1).dropLast)

/-- Value normalization of `parse_selected_product_id`
(`get_product.py` lines 159-165): trim, strip one matching pair of
brackets or parentheses, strip one matching pair of quotes, strip a
trailing comma. -/
def normalizeValue (raw : Str) : Str :=
  let v0 := pyStrip raw
  let v1 := if (firstIs '[' v0 && lastIs ']' v0) || (firstIs '(' v0 && lastIs ')' v0)
    then stripWrap v0 else v0
  let v2 := if (firstIs '"' v1 && lastIs '"' v1) || (firstIs sq v1 && lastIs sq v1)
    then stripWrap v1 else v1
  if lastIs ',' v2 then pyStrip v2.dropLast else v2

/-- The per-line loop of `parse_selected_product_id`
(`get_product.py` lines 154-166). -/
def parseLines : List Str → Option Str
  | [] => none
  | line :: rest =>
    if line = [] then parseLines rest
    else
      let stripped := pyStrip line
      if keyLit.isPrefixOf (pyLower stripped) then
        let v := normalizeValue (afterFirstColon stripped)
        if v = [] then none else some v
      else parseLines rest

/-- `parse_selected_product_id` (`get_product.py` lines 151-167). -/
def parseSelectedProductId (text : Str) : Option Str :=
  if text = [] then none else parseLines (pySplitlines text)

/-! ## `fetch_selected_product` (the SelectionPipeline)

The BigQuery client is abstracted: the single combined query of
`SQL_TEMPLATE` is represented by the list of rows it returns, and the
details query by a lookup function from a product id to an optional
detail row.  Everything `fetch_selected_product` itself does with those
results is embedded faithfully. -/

/-- One row of the combined query: the `found_products` aggregate and the
`selected_product` generation output, either of which may be `NULL`. -/
structure QueryRow where
  found_products : Option Str
  selected_product : Option Str
deriving DecidableEq

/-- A row of the product-details query
(`SELECT product_id, title, brand, price, description`). -/
structure ProductDetail where
  product_id : Str
  title : Option Str
  brand : Option Str
  price : Option Int
  description : Option Str
deriving DecidableEq

/-- The two `RuntimeError`s that `fetch_selected_product` can raise
(`get_product.py` lines 193 and 202-205). -/
inductive PipelineError where
  | noRows
  | unparseable (fullText : Str)
deriving DecidableEq

/-- The message of each `RuntimeError`
(`get_product.py` lines 193 and 202-205; an empty normalized text is
reported as `<empty>`). -/
def errorMessage : PipelineError → Str
  | .noRows => "Query returned no rows".data
  | .unparseable t =>
    "Could not parse SELECTED_PRODUCT_ID from LLM output. Full text: ".data
      ++ (if t = [] then "<empty>".data else t)

/-- The dictionary returned on success (`get_product.py` lines 221-227). -/
structure FetchResult where
  search_query : Str
  found_products : Option Str
  selected_raw : Str
  selected_product_id : Str
  selected_product : Option ProductDetail
deriving DecidableEq

/-- `fetch_selected_product` (`get_product.py` lines 171-227), given the
rows returned by the combined query and the details-lookup behavior. -/
def fetchSelectedProduct (queryRows : List QueryRow)
    (lookupDetail : Str → Option ProductDetail) (searchQuery : Str) :
    Except PipelineError FetchResult :=
  match queryRows.head? with
  | none => .error .noRows
  | some row =>
    let selectedText := extractTextFromPossibleJson (some (row.selected_product.getD []))
    match parseSelectedProductId selectedText with
    | none => .error (.unparseable selectedText)
    | some sid =>
      if sid = [] then .error (.unparseable selectedText)
      else
        .ok { search_query := searchQuery
              found_products := row.found_products
              selected_raw := selectedText
              selected_product_id := sid
              selected_product := lookupDetail sid }

/-! ## The selection prompt of `SQL_TEMPLATE` (the PromptBuilder)

`SQL_TEMPLATE` (`get_product.py` lines 53-80) builds the prompt inside
BigQuery with `CONCAT`/`STRING_AGG` over the `top_candidates` rows.  The
rendering is embedded as a Lean function over candidate rows.  Numeric
idealization: `product_id` and `price` are `INT64` values; the `FLOAT64`
`similarity_score` is an exact multiple of `10^-6` carried as a count of
micro-units, so that `ROUND(similarity_score, 3)` (half away from zero)
and its decimal `CAST ... AS STRING` rendering are exact integer
arithmetic. -/

/-- One `top_candidates` row. -/
structure Candidate where
  product_id : Int
  title : Option Str
  brand : Option Str
  price : Option Int
  description : Option Str
  simMicro : Int
deriving DecidableEq

/-- Decimal rendering of a natural number. -/
def natToStr (n : Nat) : Str := Nat.toDigits 10 n

/-- Decimal rendering of an integer (`CAST(x AS STRING)` for `INT64`). -/
def intToStr (i : Int) : Str :=
  if i < 0 then '-' :: natToStr i.natAbs else natToStr i.natAbs

/-- `ROUND(x, 3)` on a similarity carried in micro-units: the result in
milli-units, rounding halfway cases away from zero. -/
def roundMicroToMilli (m : Int) : Int :=
  if m < 0 then -((-m + 500) / 1000) else (m + 500) / 1000

/-- Three decimal digits with leading zeros. -/
def pad3 (n : Nat) : Str :=
  if n < 10 then '0' :: '0' :: natToStr n
  else if n < 100 then '0' :: natToStr n
  else natToStr n

/-- `CAST(x AS STRING)` of a value held in milli-units: shortest decimal
form with at least one fractional digit (`0.988`, `1.0`, `-0.5`). -/
def renderMilliFloat (m : Int) : Str :=
  let sign : Str := if m < 0 then ['-'] else []
  let a := m.natAbs
  let fp := a % 1000
  let frac : Str :=
    if fp = 0 then ['0']
    else ((pad3 fp).reverse.dropWhile (fun c => c == '0')).reverse
  sign ++ natToStr (a / 1000) ++ '.' :: frac

/-- `CAST(ROUND(similarity_score, 3) AS STRING)`. -/
def renderScore (simMicro : Int) : Str :=
  renderMilliFloat (roundMicroToMilli simMicro)

/-- The placeholder used when `description` is `NULL`
(`get_product.py` line 63). -/
def noDescription : Str := "No description available".data

/-- One candidate block of the prompt (`get_product.py` lines 58-65):
`IFNULL` on title and brand, price defaulting to `0`, description
truncated to its first 200 characters (`SUBSTR(description, 1, 200)`) or
the placeholder, similarity rounded to 3 decimal places. -/
def renderCandidate (c : Candidate) : Str :=
  "Product ID: ".data ++ intToStr c.product_id ++ "\n".data ++
  "Title: ".data ++ c.title.getD [] ++ "\n".data ++
  "Brand: ".data ++ c.brand.getD [] ++ "\n".data ++
  "Price: $".data ++ intToStr (c.price.getD 0) ++ "\n".data ++
  "Description: ".data ++ (c.description.map (List.take 200)).getD noDescription ++ "\n".data ++
  "Similarity Score: ".data ++ renderScore c.simMicro

/-- The `STRING_AGG` delimiter between candidate blocks
(`get_product.py` line 66). -/
def promptDelim : Str := "\n\n---\n\n".data

/-- `STRING_AGG(x, sep)` over the rendered blocks, in row order. -/
def joinWith (sep : Str) : List Str → Str
  | [] => []
  | [x] => x
  | x :: xs => x ++ sep ++ joinWith sep xs

/-- The full selection prompt (`get_product.py` lines 53-80).  The task
statement hardcodes the literal `10`; it does not depend on the number of
candidate rows. -/
def buildPrompt (query : Str) (cands : List Candidate) : Str :=
  "SEARCH QUERY: \"".data ++ query ++ "\"\n\n".data ++
  "TASK: From the following 10 similar products, select the SINGLE best match for \"".data
    ++ query ++ "\".\n\n".data ++
  "CANDIDATES:\n".data ++
  joinWith promptDelim (cands.map renderCandidate) ++ "\n\n".data ++
  "SELECTION CRITERIA:\n".data ++
  "- Best relevance to \"".data ++ query ++ "\"\n".data ++
  "- Quality and features\n".data ++
  "- Value for money\n".data ++
  "- Brand reputation\n\n".data ++
  "RESPONSE FORMAT:\n".data ++
  "SELECTED_PRODUCT_ID: [exact product_id]\n".data ++
  "PRODUCT_NAME: [title]\n".data ++
  "REASONING: [2-3 sentences]\n".data ++
  "CONFIDENCE: [High/Medium/Low]\n".data ++
  "KEY_FEATURES: [main features]\n\n".data ++
  "Choose exactly ONE product and be decisive.".data

/-! ## Specification-side definitions

These follow the wording of the spec (§4.3), to be compared with the
definitions embedded from the source. -/

/-- A line matches when, case-insensitively after trimming, it starts
with `selected_product_id:`. -/
def matchesKey (line : Str) : Bool :=
  keyLit.isPrefixOf (pyLower (pyStrip line))

/-- The normalized value a matching line contributes: `none` when it is
empty after normalization. -/
def lineValue (line : Str) : Option Str :=
  let v := normalizeValue (afterFirstColon (pyStrip line))
  if v = [] then none else some v

/-- The parser as the spec words it: scan lines in order, stop at the
first matching line, return its normalized value or absent. -/
def parseSelectedProductIdSpec (text : Str) : Option Str :=
  match (pySplitlines text).find? matchesKey with
  | none => none
  | some line => lineValue line

/-! ## Exception-tracking variants

Python raises `IndexError` on `stripped.split(":", 1)[1]` when the line
holds no colon.  `afterFirstColonExc` models that indexing step as
fallible, and `parseSelectedProductIdExc` threads the possible exception
through `parse_selected_product_id`; proving it always returns `.ok`
establishes that the parsing layer cannot raise. -/

/-- Python `s.split(":", 1)[1]`: an `IndexError` (modelled as `.error ()`)
when `s` holds no colon. -/
def afterFirstColonExc (s : Str) : Except Unit Str :=
  if ':' ∈ s then .ok (afterFirstColon s) else .error ()

/-- The per-line loop with the indexing step kept fallible. -/
def parseLinesExc : List Str → Except Unit (Option Str)
  | [] => .ok none
  | line :: rest =>
    if line = [] then parseLinesExc rest
    else
      let stripped := pyStrip line
      if keyLit.isPrefixOf (pyLower stripped) then
        match afterFirstColonExc stripped with
        | .error e => .error e
        | .ok raw =>
          let v := normalizeValue raw
          .ok (if v = [] then none else some v)
      else parseLinesExc rest

/-- `parse_selected_product_id` with the indexing step kept fallible. -/
def parseSelectedProductIdExc (text : Str) : Except Unit (Option Str) :=
  if text = [] then .ok none else parseLinesExc (pySplitlines text)

/-! ## Helper lemmas -/

/-- Only the colon lowercases to a colon. -/
theorem pyToLower_eq_colon {c : Char} (h : pyToLower c = ':') : c = ':' := by
  unfold pyToLower at h
  cases hf : lowerPairs.find? (fun p => p.1 == c) with
  | none => simpa [hf] using h
  | some p =>
    have hmem : p ∈ lowerPairs := List.mem_of_find?_eq_some hf
    have hall : ∀ q ∈ lowerPairs, q.2 ≠ ':' := by decide
    rw [hf] at h
    exact absurd h (hall p hmem)

/-- A line whose lowercase form starts with `selected_product_id:` holds
a colon, so Python `split(":", 1)[1]` cannot raise on it. -/
theorem colon_mem_of_key {s : Str} (h : keyLit.isPrefixOf (pyLower s) = true) :
    ':' ∈ s := by
  rw [List.isPrefixOf_iff_prefix] at h
  have hc : ':' ∈ pyLower s := h.subset (by decide)
  rcases List.mem_map.mp hc with ⟨c, hcs, hcl⟩
  have hceq : c = ':' := pyToLower_eq_colon hcl
  rwa [hceq] at hcs

/-- The per-line loop never yields an empty identifier. -/
theorem parseLines_ne_nil : ∀ ls, parseLines ls ≠ some [] := by
  intro ls
  induction ls with
  | nil => simp [parseLines]
  | cons line rest ih =>
    simp only [parseLines]
    split_ifs with h1 h2 h3 <;> simp_all

/-- `parse_selected_product_id` never yields an empty identifier. -/
theorem parseSelectedProductId_ne_nil (text : Str) :
    parseSelectedProductId text ≠ some [] := by
  unfold parseSelectedProductId
  split_ifs with h
  · simp
  · exact parseLines_ne_nil _

/-- The per-line loop agrees with the first-matching-line description. -/
theorem parseLines_eq_find (ls : List Str) :
    parseLines ls = match ls.find? matchesKey with
      | none => none
      | some line => lineValue line := by
  induction ls with
  | nil => rfl
  | cons line rest ih =>
    by_cases h1 : line = []
    · subst h1
      have e1 : parseLines ([] :: rest) = parseLines rest := rfl
      rw [e1, List.find?_cons_of_neg _ (by decide), ih]
    · by_cases h2 : matchesKey line = true
      · rw [List.find?_cons_of_pos _ h2]
        have h2' : keyLit.isPrefixOf (pyLower (pyStrip line)) = true := h2
        simp only [parseLines, if_neg h1, if_pos h2']
        rfl
      · have h2' : ¬ keyLit.isPrefixOf (pyLower (pyStrip line)) = true := h2
        rw [List.find?_cons_of_neg _ h2]
        simp only [parseLines, if_neg h1, if_neg h2']
        exact ih

/-- The exception-tracking per-line loop always returns `.ok`. -/
theorem parseLinesExc_eq_ok (ls : List Str) :
    parseLinesExc ls = .ok (parseLines ls) := by
  induction ls with
  | nil => rfl
  | cons line rest ih =>
    by_cases h1 : line = []
    · simp only [parseLinesExc, parseLines, if_pos h1, ih]
    · by_cases h2 : keyLit.isPrefixOf (pyLower (pyStrip line)) = true
      · have hc : ':' ∈ pyStrip line := colon_mem_of_key h2
        simp only [parseLinesExc, parseLines, if_neg h1, if_pos h2,
          afterFirstColonExc, if_pos hc]
      · simp only [parseLinesExc, parseLines, if_neg h1, ih]
        rw [if_neg h2, if_neg h2]

/-- An infix of the right part of an append is an infix of the whole. -/
theorem infix_append_left {t B : Str} (A : Str) (h : t <:+: B) :
    t <:+: A ++ B :=
  h.trans (List.suffix_append A B).isInfix

/-- An infix of the left part of an append is an infix of the whole. -/
theorem infix_append_right {t A : Str} (B : Str) (h : t <:+: A) :
    t <:+: A ++ B :=
  h.trans (List.prefix_append A B).isInfix

/-- Each joined piece is an infix of a `STRING_AGG` result. -/
theorem infix_joinWith {x : Str} {l : List Str} (sep : Str) (hx : x ∈ l) :
    x <:+: joinWith sep l := by
  induction l with
  | nil => cases hx
  | cons y ys ih =>
    cases ys with
    | nil =>
      rcases List.mem_singleton.mp hx with rfl
      exact List.infix_refl x
    | cons z zs =>
      have e : joinWith sep (y :: z :: zs) = y ++ (sep ++ joinWith sep (z :: zs)) := by
        rw [show joinWith sep (y :: z :: zs) = y ++ sep ++ joinWith sep (z :: zs) from rfl,
          List.append_assoc]
      rw [e]
      rcases List.mem_cons.mp hx with rfl | h
      · exact (List.prefix_append _ _).isInfix
      · exact infix_append_left _ (infix_append_left _ (ih h))

/-! ## Claims -/

/-- C1: every RawOutput shape of the spec's table normalizes to the
expected plain string — a plain non-JSON string to itself, the JSON-quoted
string to its content, the `text`-keyed object and the nested
`candidates` object to the inner text, malformed JSON unchanged — and on
every parsed JSON object the keys `ml_generate_text_result`, `text`,
`content`, `output_text`, `result` are searched in that fixed priority
order, the first string value found being returned. -/
theorem c1_normalize_shapes (kvs : List (Str × Json)) (v : Str)
    (h : firstKeyString kvs keyList = some v) :
    extractTextFromPossibleJson (some "hello".data) = "hello".data
    ∧ extractTextFromPossibleJson (some "\"hello\"".data) = "hello".data
    ∧ extractTextFromPossibleJson (some "\x7b\"text\": \"hello\"\x7d".data) = "hello".data
    ∧ extractTextFromPossibleJson
        (some "\x7b\"candidates\":[\x7b\"content\":\x7b\"parts\":[\x7b\"text\":\"hello\"\x7d]\x7d\x7d]\x7d".data)
      = "hello".data
    ∧ extractTextFromPossibleJson (some "\x7bbad".data) = "\x7bbad".data
    ∧ extractTextFromPossibleJson (some "\x7b\"result\": \"r\", \"text\": \"t\"\x7d".data)
      = "t".data
    ∧ extractFromJson (Json.obj kvs) = some v := by
  refine ⟨by decide, by decide, by decide, by decide, by decide, by decide, ?_⟩
  simp [extractFromJson, extractFromObj, h]

/-- C1 witness: the priority scan instantiated on a concrete object. -/
theorem c1_normalize_shapes_witness :
    firstKeyString [("text".data, Json.str "hi".data)] keyList = some "hi".data
    ∧ extractFromJson (Json.obj [("text".data, Json.str "hi".data)]) = some "hi".data :=
  ⟨rfl, (c1_normalize_shapes [("text".data, Json.str "hi".data)] "hi".data rfl).2.2.2.2.2.2⟩

/-- C2: the parser scans lines in order and stops at the first line that,
case-insensitively after trimming, starts with `selected_product_id:`;
only that first matching line's value is ever returned, and when no line
matches, or the first matching line's value is empty after normalization,
the result is absent.  Stated as agreement with the first-matching-line
description `parseSelectedProductIdSpec`, plus the concrete first-wins and
absent cases. -/
theorem c2_first_match_wins (text : Str) :
    parseSelectedProductId text = parseSelectedProductIdSpec text
    ∧ parseSelectedProductId "selected_product_id: 1\nselected_product_id: 2".data
      = some "1".data
    ∧ parseSelectedProductId "selected_product_id:\nselected_product_id: 2".data = none
    ∧ parseSelectedProductId "NAME: foo".data = none := by
  refine ⟨?_, by decide, by decide, by decide⟩
  unfold parseSelectedProductId parseSelectedProductIdSpec
  split_ifs with h
  · subst h; rfl
  · exact parseLines_eq_find _

/-- C3 counterexample: `parse("selected_product_id: '7',")` returns the
identifier with its single quotes kept (`'7'`), not `7`: the code checks
the quote pair before stripping the trailing comma, so a quote pair hidden
behind a trailing comma is never unwrapped. -/
theorem c3_quoted_comma_counterexample :
    parseSelectedProductId ("selected_product_id: ".data ++ [sq, '7', sq, ','])
      = some [sq, '7', sq]
    ∧ [sq, '7', sq] ≠ "7".data := by
  exact ⟨by decide, by decide⟩

/-- C3 amended: the key match is case-insensitive and one wrapping layer
plus a trailing comma are stripped, but in the fixed order bracket pair,
quote pair, then trailing comma — so `parse("selected_product_id: '7',")`
yields `'7'` with the quotes kept, while without the trailing comma the
quotes are stripped (`7`), and `parse("SELECTED_PRODUCT_ID: [42]\nOTHER: x")`
yields `42`. -/
theorem c3_normalization_order :
    parseSelectedProductId ("selected_product_id: ".data ++ [sq, '7', sq, ','])
      = some [sq, '7', sq]
    ∧ parseSelectedProductId ("selected_product_id: ".data ++ [sq, '7', sq])
      = some "7".data
    ∧ parseSelectedProductId "SELECTED_PRODUCT_ID: [42]\nOTHER: x".data
      = some "42".data := by
  exact ⟨by decide, by decide, by decide⟩

/-- C4 counterexample: on a fallback input with surrounding whitespace the
function returns the original UNtrimmed string (`return s`, line 148), not
the trimmed value the claim expects. -/
theorem c4_fallback_untrimmed_counterexample :
    extractTextFromPossibleJson (some "  hello  ".data) = "  hello  ".data
    ∧ pyStrip "  hello  ".data = "hello".data
    ∧ "  hello  ".data ≠ "hello".data := by
  exact ⟨by decide, by decide, by decide⟩

/-- C4 amended: whenever JSON parsing of the trimmed value fails, or
parsing succeeds but no structured extraction does, the function returns
the original value unchanged — the untrimmed input, not the trimmed
one. -/
theorem c4_fallback_returns_original (s : Str)
    (h : pyJsonLoads (pyStrip s) = none
      ∨ ∃ j, pyJsonLoads (pyStrip s) = some j ∧ extractFromJson j = none) :
    extractTextFromPossibleJson (some s) = s := by
  rcases h with h | ⟨j, hj, hx⟩
  · simp [extractTextFromPossibleJson, h]
  · rcases j with _ | b | lx | v | elems | kvs
    · simp [extractTextFromPossibleJson, hj, extractFromJson]
    · simp [extractTextFromPossibleJson, hj, extractFromJson]
    · simp [extractTextFromPossibleJson, hj, extractFromJson]
    · simp [extractFromJson] at hx
    · simp only [extractFromJson] at hx
      simp [extractTextFromPossibleJson, hj, extractFromJson, hx]
    · simp only [extractFromJson] at hx
      simp [extractTextFromPossibleJson, hj, extractFromJson, hx]

/-- C4 witness: the fallback applied to a concrete non-JSON input and to
a concrete well-formed JSON object with no extractable text. -/
theorem c4_fallback_returns_original_witness :
    extractTextFromPossibleJson (some "  not json  ".data) = "  not json  ".data
    ∧ extractTextFromPossibleJson (some "\x7b\"weird\": 1\x7d".data)
      = "\x7b\"weird\": 1\x7d".data :=
  ⟨c4_fallback_returns_original "  not json  ".data (Or.inl rfl),
   c4_fallback_returns_original "\x7b\"weird\": 1\x7d".data
     (Or.inr ⟨Json.obj [("weird".data, Json.num ['1'])], rfl, rfl⟩)⟩

/-- C5: the parsing layer is total and never raises: the variant of
`parse_selected_product_id` that tracks the one fallible operation
(`split(":", 1)[1]`) always returns `.ok` of the plain result, the
normalizer maps a `None` input to the empty string, and an arbitrarily
shaped JSON value with no recognized key falls back to the raw text
instead of failing. -/
theorem c5_parsing_never_raises (text : Str) :
    parseSelectedProductIdExc text = .ok (parseSelectedProductId text)
    ∧ extractTextFromPossibleJson none = []
    ∧ extractTextFromPossibleJson
        (some "\x7b\"weird\": [1, \x7b\"deep\": null\x7d]\x7d".data)
      = "\x7b\"weird\": [1, \x7b\"deep\": null\x7d]\x7d".data := by
  refine ⟨?_, rfl, by decide⟩
  unfold parseSelectedProductIdExc parseSelectedProductId
  split_ifs with h
  · rfl
  · exact parseLinesExc_eq_ok _

/-- C6 counterexample: on the zero-candidate outcome the pipeline does not
fail with a dedicated no-candidates error.  The combined query aggregates
over `top_candidates`, so with zero candidates it still returns one row
whose `found_products` and `selected_product` are `NULL`; on that row
`fetch_selected_product` raises the generic could-not-parse `RuntimeError`
(with `<empty>` text), which is distinct from the no-rows error and names
no candidate condition. -/
theorem c6_zero_candidates_counterexample :
    fetchSelectedProduct [⟨none, none⟩] (fun _ => none) "shoes".data
      = .error (.unparseable [])
    ∧ PipelineError.unparseable [] ≠ PipelineError.noRows
    ∧ errorMessage (.unparseable [])
      = "Could not parse SELECTED_PRODUCT_ID from LLM output. Full text: <empty>".data := by
  refine ⟨rfl, by decide, by decide⟩

/-- C6 amended: generation is embedded in the same SQL statement as
retrieval, so it is never conditionally skipped; a result with no rows at
all raises the no-rows `RuntimeError`, the zero-candidate aggregate row
(all fields `NULL`) raises the generic unparseable-selection
`RuntimeError`, and every run outcome is one of: the no-rows error, an
unparseable-selection error, or success — there is no `NoCandidatesError`. -/
theorem c6_zero_candidates_behavior (rows : List QueryRow)
    (lookup : Str → Option ProductDetail) (q : Str) :
    fetchSelectedProduct [] lookup q = .error .noRows
    ∧ fetchSelectedProduct [⟨none, none⟩] lookup q = .error (.unparseable [])
    ∧ (fetchSelectedProduct rows lookup q = .error .noRows
       ∨ (∃ t, fetchSelectedProduct rows lookup q = .error (.unparseable t))
       ∨ (∃ r, fetchSelectedProduct rows lookup q = .ok r)) := by
  refine ⟨rfl, rfl, ?_⟩
  rcases hh : rows.head? with _ | row
  · simp only [fetchSelectedProduct, hh]
    exact Or.inl trivial
  · rcases hp : parseSelectedProductId
        (extractTextFromPossibleJson (some (row.selected_product.getD []))) with _ | sid
    · simp only [fetchSelectedProduct, hh, hp]
      exact Or.inr (Or.inl ⟨_, rfl⟩)
    · by_cases hs : sid = []
      · simp only [fetchSelectedProduct, hh, hp, if_pos hs]
        exact Or.inr (Or.inl ⟨_, rfl⟩)
      · simp only [fetchSelectedProduct, hh, hp, if_neg hs]
        exact Or.inr (Or.inr ⟨_, rfl⟩)

/-- C7 counterexample: the unparseable-selection error is raised even when
the generation output is EMPTY — a first row with a `NULL`
`selected_product` normalizes to the empty string, the parser returns
absent, and the same `RuntimeError` is raised with the `<empty>`
placeholder — refuting the claim that this error occurs only after a
non-empty generation. -/
theorem c7_empty_generation_counterexample :
    extractTextFromPossibleJson (some ((none : Option Str).getD [])) = []
    ∧ fetchSelectedProduct [⟨some "agg".data, none⟩] (fun _ => none) "q".data
      = .error (.unparseable [])
    ∧ errorMessage (.unparseable [])
      = "Could not parse SELECTED_PRODUCT_ID from LLM output. Full text: <empty>".data := by
  refine ⟨rfl, rfl, by decide⟩

/-- C7 amended: whenever the parser returns absent on the normalized
generation output — empty or not — the pipeline fails with the
unparseable-selection error carrying that normalized text (no default
candidate is ever picked), and for non-empty text the error message ends
with the full normalized text. -/
theorem c7_unparseable_error (rows : List QueryRow) (row : QueryRow)
    (lookup : Str → Option ProductDetail) (q : Str)
    (hrow : rows.head? = some row)
    (hparse : parseSelectedProductId
        (extractTextFromPossibleJson (some (row.selected_product.getD []))) = none) :
    fetchSelectedProduct rows lookup q
      = .error (.unparseable
          (extractTextFromPossibleJson (some (row.selected_product.getD []))))
    ∧ (∀ t : Str, t ≠ [] → errorMessage (.unparseable t)
        = "Could not parse SELECTED_PRODUCT_ID from LLM output. Full text: ".data ++ t) := by
  constructor
  · simp only [fetchSelectedProduct, hrow, hparse]
  · intro t ht
    simp [errorMessage, ht]

/-- C7 witness: a concrete first row whose generation output holds no
identifier line. -/
theorem c7_unparseable_error_witness :
    fetchSelectedProduct [⟨none, some "no id here".data⟩] (fun _ => none) "q".data
      = .error (.unparseable (extractTextFromPossibleJson
          (some (((⟨none, some "no id here".data⟩ : QueryRow).selected_product).getD []))))
    ∧ (∀ t : Str, t ≠ [] → errorMessage (.unparseable t)
        = "Could not parse SELECTED_PRODUCT_ID from LLM output. Full text: ".data ++ t) :=
  c7_unparseable_error [⟨none, some "no id here".data⟩] ⟨none, some "no id here".data⟩
    (fun _ => none) "q".data rfl (by decide)

/-- C8: when the parsed identifier matches no record in the detail lookup,
the pipeline still succeeds: the result carries the identifier with an
absent detail record, and no error is produced. -/
theorem c8_lookup_miss_still_success (rows : List QueryRow) (row : QueryRow)
    (lookup : Str → Option ProductDetail) (q : Str) (sid : Str)
    (hrow : rows.head? = some row)
    (hparse : parseSelectedProductId
        (extractTextFromPossibleJson (some (row.selected_product.getD []))) = some sid)
    (hmiss : lookup sid = none) :
    fetchSelectedProduct rows lookup q
      = .ok { search_query := q
              found_products := row.found_products
              selected_raw := extractTextFromPossibleJson (some (row.selected_product.getD []))
              selected_product_id := sid
              selected_product := none } := by
  have hs : sid ≠ [] := by
    intro he
    subst he
    exact parseSelectedProductId_ne_nil _ hparse
  simp only [fetchSelectedProduct, hrow, hparse, if_neg hs, hmiss]

/-- C8 witness: a generation output that parses to identifier `42` with an
always-missing detail lookup. -/
theorem c8_lookup_miss_still_success_witness :
    fetchSelectedProduct [⟨some "agg".data, some "SELECTED_PRODUCT_ID: 42".data⟩]
        (fun _ => none) "ceramic sink".data
      = .ok { search_query := "ceramic sink".data
              found_products :=
                (⟨some "agg".data, some "SELECTED_PRODUCT_ID: 42".data⟩ : QueryRow).found_products
              selected_raw := extractTextFromPossibleJson
                (some (((⟨some "agg".data, some "SELECTED_PRODUCT_ID: 42".data⟩ :
                  QueryRow).selected_product).getD []))
              selected_product_id := "42".data
              selected_product := none } :=
  c8_lookup_miss_still_success
    [⟨some "agg".data, some "SELECTED_PRODUCT_ID: 42".data⟩]
    ⟨some "agg".data, some "SELECTED_PRODUCT_ID: 42".data⟩
    (fun _ => none) "ceramic sink".data "42".data rfl (by decide) rfl

/-- A JSON read beginning at a single quote fails: no JSON production
starts with that character. -/
theorem parseVal_sq_none (f : Nat) (rest : Str) :
    parseVal (f + 1) (sq :: rest) = none := rfl

/-- `json.loads` fails on any input starting with a single quote. -/
theorem pyJsonLoads_sq (rest : Str) : pyJsonLoads (sq :: rest) = none := by
  unfold pyJsonLoads
  rw [parseVal_sq_none]

/-- C10: an input whose trimmed form starts with a single quote is
returned unchanged, quotes still attached — the quoted-string branch
attempts `json.loads`, which only accepts double-quoted string literals,
so single-quote unwrapping never fires; in particular `'hello'` maps to
itself. -/
theorem c10_single_quotes_kept (s : Str)
    (h : firstIs sq (pyStrip s) = true) :
    extractTextFromPossibleJson (some s) = s
    ∧ extractTextFromPossibleJson (some (sq :: "hello".data ++ [sq]))
      = sq :: "hello".data ++ [sq] := by
  refine ⟨?_, by decide⟩
  obtain ⟨c, rest, ht⟩ : ∃ c rest, pyStrip s = c :: rest := by
    rcases hs : pyStrip s with _ | ⟨c, r⟩
    · rw [hs] at h
      simp [firstIs] at h
    · exact ⟨c, r, rfl⟩
  have hc : c = sq := by
    rw [ht] at h
    simpa [firstIs] using h
  subst hc
  simp only [extractTextFromPossibleJson, ht, pyJsonLoads_sq,
    show firstIs '"' (sq :: rest) = false from rfl,
    show firstIs (Char.ofNat 123) (sq :: rest) = false from rfl,
    show firstIs '[' (sq :: rest) = false from rfl]
  simp

/-- A concrete candidate row used to evaluate the prompt builder. -/
def cand1 : Candidate :=
  { product_id := 7
    title := some "Table".data
    brand := some "Acme".data
    price := some 3
    description := some "Wood".data
    simMicro := 987654 }

set_option maxRecDepth 40000 in
/-- C9 counterexample: the task statement does not name the number of
candidates — for a single-candidate sequence the prompt still says
`the following 10 similar products` and never `the following 1
similar products`: the `10` is hardcoded in `SQL_TEMPLATE`. -/
theorem c9_hardcoded_ten_counterexample :
    ([cand1] : List Candidate).length = 1
    ∧ ("From the following 10 similar products".data
        <:+: buildPrompt "q".data [cand1])
    ∧ ¬ ("From the following 1 similar products".data
        <:+: buildPrompt "q".data [cand1]) := by
  refine ⟨rfl, by decide, by decide⟩

set_option maxRecDepth 40000 in
/-- C9 amended: the prompt contains, in order, the query echoed verbatim,
a task statement naming the literal `10` regardless of the candidate
count, and the candidate blocks joined by the fixed delimiter; each block
renders identifier, title, brand, price defaulting to `0` when absent,
the description truncated to its first 200 characters or a literal
placeholder when absent, and the similarity score rounded to 3 decimal
places; and identical inputs give byte-identical prompts. -/
theorem c9_prompt_contents (q : Str) (cands : List Candidate)
    (hne : cands ≠ []) (hlen : cands.length ≤ 10) :
    (∃ mid tail, buildPrompt q cands
        = "SEARCH QUERY: \"".data ++ q ++ mid
          ++ joinWith promptDelim (cands.map renderCandidate) ++ tail
      ∧ "From the following 10 similar products".data <:+: mid)
    ∧ (∀ c ∈ cands, renderCandidate c <:+: buildPrompt q cands)
    ∧ (∀ c : Candidate, c.price = none →
        "Price: $".data ++ ['0'] ++ "\n".data <:+: renderCandidate c)
    ∧ (∀ c : Candidate, c.description = none →
        "Description: ".data ++ noDescription ++ "\n".data <:+: renderCandidate c)
    ∧ (∀ c : Candidate, ∀ d : Str, c.description = some d →
        "Description: ".data ++ d.take 200 ++ "\n".data <:+: renderCandidate c)
    ∧ (∀ c : Candidate,
        "Similarity Score: ".data ++ renderScore c.simMicro <:+: renderCandidate c)
    ∧ (∀ q2 cands2, q2 = q → cands2 = cands → buildPrompt q2 cands2 = buildPrompt q cands) := by
  refine ⟨?_, ?_, ?_, ?_, ?_, ?_, ?_⟩
  · refine ⟨"\"\n\n".data
        ++ "TASK: From the following 10 similar products, select the SINGLE best match for \"".data
        ++ q ++ "\".\n\n".data ++ "CANDIDATES:\n".data,
      "\n\n".data ++ "SELECTION CRITERIA:\n".data ++ "- Best relevance to \"".data ++ q
        ++ "\"\n".data ++ "- Quality and features\n".data ++ "- Value for money\n".data
        ++ "- Brand reputation\n\n".data ++ "RESPONSE FORMAT:\n".data
        ++ "SELECTED_PRODUCT_ID: [exact product_id]\n".data ++ "PRODUCT_NAME: [title]\n".data
        ++ "REASONING: [2-3 sentences]\n".data ++ "CONFIDENCE: [High/Medium/Low]\n".data
        ++ "KEY_FEATURES: [main features]\n\n".data
        ++ "Choose exactly ONE product and be decisive.".data, ?_, ?_⟩
    · simp [buildPrompt, List.append_assoc]
    · have h0 : "From the following 10 similar products".data
          <:+: "TASK: From the following 10 similar products, select the SINGLE best match for \"".data := by
        decide
      refine h0.trans ⟨"\"\n\n".data,
        q ++ "\".\n\n".data ++ "CANDIDATES:\n".data, ?_⟩
      simp [List.append_assoc]
  · intro c hc
    have hJ : renderCandidate c <:+: joinWith promptDelim (cands.map renderCandidate) :=
      infix_joinWith promptDelim (List.mem_map_of_mem renderCandidate hc)
    refine hJ.trans ⟨"SEARCH QUERY: \"".data ++ q ++ "\"\n\n".data
        ++ "TASK: From the following 10 similar products, select the SINGLE best match for \"".data
        ++ q ++ "\".\n\n".data ++ "CANDIDATES:\n".data,
      "\n\n".data ++ "SELECTION CRITERIA:\n".data ++ "- Best relevance to \"".data ++ q
        ++ "\"\n".data ++ "- Quality and features\n".data ++ "- Value for money\n".data
        ++ "- Brand reputation\n\n".data ++ "RESPONSE FORMAT:\n".data
        ++ "SELECTED_PRODUCT_ID: [exact product_id]\n".data ++ "PRODUCT_NAME: [title]\n".data
        ++ "REASONING: [2-3 sentences]\n".data ++ "CONFIDENCE: [High/Medium/Low]\n".data
        ++ "KEY_FEATURES: [main features]\n\n".data
        ++ "Choose exactly ONE product and be decisive.".data, ?_⟩
    simp [buildPrompt, List.append_assoc]
  · intro c hc
    refine ⟨"Product ID: ".data ++ intToStr c.product_id ++ "\n".data ++ "Title: ".data
        ++ c.title.getD [] ++ "\n".data ++ "Brand: ".data ++ c.brand.getD [] ++ "\n".data,
      "Description: ".data ++ (c.description.map (List.take 200)).getD noDescription
        ++ "\n".data ++ "Similarity Score: ".data ++ renderScore c.simMicro, ?_⟩
    simp [renderCandidate, hc, List.append_assoc, show intToStr (0 : Int) = ['0'] from rfl]
  · intro c hc
    refine ⟨"Product ID: ".data ++ intToStr c.product_id ++ "\n".data ++ "Title: ".data
        ++ c.title.getD [] ++ "\n".data ++ "Brand: ".data ++ c.brand.getD [] ++ "\n".data
        ++ "Price: $".data ++ intToStr (c.price.getD 0) ++ "\n".data,
      "Similarity Score: ".data ++ renderScore c.simMicro, ?_⟩
    simp [renderCandidate, hc, List.append_assoc]
  · intro c d hd
    refine ⟨"Product ID: ".data ++ intToStr c.product_id ++ "\n".data ++ "Title: ".data
        ++ c.title.getD [] ++ "\n".data ++ "Brand: ".data ++ c.brand.getD [] ++ "\n".data
        ++ "Price: $".data ++ intToStr (c.price.getD 0) ++ "\n".data,
      "Similarity Score: ".data ++ renderScore c.simMicro, ?_⟩
    simp [renderCandidate, hd, List.append_assoc]
  · intro c
    refine ⟨"Product ID: ".data ++ intToStr c.product_id ++ "\n".data ++ "Title: ".data
        ++ c.title.getD [] ++ "\n".data ++ "Brand: ".data ++ c.brand.getD [] ++ "\n".data
        ++ "Price: $".data ++ intToStr (c.price.getD 0) ++ "\n".data
        ++ "Description: ".data ++ (c.description.map (List.take 200)).getD noDescription
        ++ "\n".data, [], ?_⟩
    simp [renderCandidate, List.append_assoc]
  · intro q2 cands2 h1 h2
    rw [h1, h2]

/-- C9 witness: the amended prompt facts instantiated on one candidate. -/
theorem c9_prompt_contents_witness :
    (∃ mid tail, buildPrompt "q".data [cand1]
        = "SEARCH QUERY: \"".data ++ "q".data ++ mid
          ++ joinWith promptDelim ([cand1].map renderCandidate) ++ tail
      ∧ "From the following 10 similar products".data <:+: mid)
    ∧ (∀ c ∈ [cand1], renderCandidate c <:+: buildPrompt "q".data [cand1])
    ∧ (∀ c : Candidate, c.price = none →
        "Price: $".data ++ ['0'] ++ "\n".data <:+: renderCandidate c)
    ∧ (∀ c : Candidate, c.description = none →
        "Description: ".data ++ noDescription ++ "\n".data <:+: renderCandidate c)
    ∧ (∀ c : Candidate, ∀ d : Str, c.description = some d →
        "Description: ".data ++ d.take 200 ++ "\n".data <:+: renderCandidate c)
    ∧ (∀ c : Candidate,
        "Similarity Score: ".data ++ renderScore c.simMicro <:+: renderCandidate c)
    ∧ (∀ q2 cands2, q2 = "q".data → cands2 = [cand1] →
        buildPrompt q2 cands2 = buildPrompt "q".data [cand1]) :=
  c9_prompt_contents "q".data [cand1] (by decide) (by decide)

/-- C10 witness: a concrete single-quoted non-JSON input. -/
theorem c10_single_quotes_kept_witness :
    firstIs sq (pyStrip (sq :: "x".data)) = true
    ∧ extractTextFromPossibleJson (some (sq :: "x".data)) = sq :: "x".data :=
  ⟨by decide, (c10_single_quotes_kept (sq :: "x".data) (by decide)).1⟩

end GetProduct
